import Mathlib

/-!
# ssh.latest.cat: the session model, its renderer and the colour ramp

A shallow embedding of `src/main.go` and `src/utils/colors/colors.go`.

Go strings are Lean strings (valid UTF-8): `len(s)` is the UTF-8 byte count and
`strings.Split(s, "")` is the list of the characters of `s`.  Code that belongs
to other modules (go-colorful, termenv, lipgloss, bubbles, bubbletea, net/http,
encoding/json) is not translated: it is taken as a parameter, so every theorem
holds for whatever these libraries compute.
-/

namespace LatestCat

/-! ## `utils/colors/colors.go` -/

/-- The operations `colors.go` and `MakeGradient` take from go-colorful and termenv. -/
structure ColorLib where
  /-- The type `colorful.Color`. -/
  Color : Type
  /-- The colour `colorful.Hex(s)` returns (its error is dropped by the caller). -/
  Hex : String → Color
  /-- The colour `cA.BlendLuv(cB, i/steps)`, for the loop counter `i` and the bound `steps`. -/
  BlendLuv : Color → Color → Nat → Nat → Color
  /-- The value `int64(c.R*255)`. -/
  R255 : Color → Int
  /-- The value `int64(c.G*255)`. -/
  G255 : Color → Int
  /-- The value `int64(c.B*255)`. -/
  B255 : Color → Int
  /-- The text `termenv.String(char).Foreground(term.Color(color)).String()`. -/
  Foreground : String → String → String

/-- The largest whole number up to which every whole number is a float64: 2^53. -/
def f64Exact : Nat := 9007199254740992

/-- The statement `i++` on a float64 loop counter that holds a whole number: below
2^53 the sum `i + 1` is exact; at 2^53 it rounds back to 2^53 (ties to even), so
a counter that started at 0 never gets past 2^53. -/
def f64Succ (i : Nat) : Nat :=
  if i < f64Exact then i + 1 else i

/-- The text `strconv.FormatInt(x, 16)`. -/
def formatInt16 (x : Int) : String :=
  if x < 0 then "-" ++ String.mk (Nat.toDigits 16 x.natAbs)
  else String.mk (Nat.toDigits 16 x.natAbs)

/-- The function `colorFloatToHex`, on the value `int64(f*255)` of its argument `f`. -/
def colorFloatToHex (x : Int) : String :=
  let s := formatInt16 x
  if s.utf8ByteSize = 1 then "0" ++ s else s

/-- The function `ColorToHex`. -/
def ColorToHex (L : ColorLib) (c : L.Color) : String :=
  "#" ++ colorFloatToHex (L.R255 c) ++ colorFloatToHex (L.G255 c) ++ colorFloatToHex (L.B255 c)

/-- The loop of `MakeRamp`: `for i := 0.0; i < steps; i++ { s = append(s, ...) }`.
The fuel counts the evaluations of the loop condition; `none` means the fuel ran
out before the condition became false. -/
def rampLoop (L : ColorLib) (cA cB : L.Color) (steps : Nat) :
    Nat → Nat → List String → Option (List String)
  | 0, _, _ => none
  | fuel + 1, i, s =>
    if i < steps then
      rampLoop L cA cB steps fuel (f64Succ i) (s ++ [ColorToHex L (L.BlendLuv cA cB i steps)])
    else some s

/-- The function `MakeRamp`, for a whole-number `steps`. -/
def MakeRamp (L : ColorLib) (fuel : Nat) (colorA colorB : String) (steps : Nat) :
    Option (List String) :=
  rampLoop L (L.Hex colorA) (L.Hex colorB) steps fuel 0 []

/-- A small instance of the colour library: a colour is a triple of channel values
and blending picks a channel-wise weighted mean. It serves to evaluate the
definitions on concrete inputs. -/
def sampleColors : ColorLib where
  Color := Int × Int × Int
  Hex := fun s => if s = "#B14FFF" then (177, 79, 255) else if s = "#00FFA3" then (0, 255, 163) else (0, 0, 0)
  BlendLuv := fun a b i n =>
    ((a.1 * (n - i) + b.1 * i) / n, (a.2.1 * (n - i) + b.2.1 * i) / n, (a.2.2 * (n - i) + b.2.2 * i) / n)
  R255 := fun c => c.1
  G255 := fun c => c.2.1
  B255 := fun c => c.2.2
  Foreground := fun ch color => "[" ++ color ++ "]" ++ ch


/-! ## `main.go`: strings -/

/-- The banner `cat`. -/
def cat : String :=
  "                               ,----.\n" ++
  "                              ( WOW! )                         .-.\n" ++
  "                               `----' _                         \\ \\\n" ++
  "                                     (_)                         \\ \\\n" ++
  "                                         O                       | |\n" ++
  "                    |\\ /\\                  o                     | |\n" ++
  "    __              |,\\(_\\_                  . /\\---/\\   _,---._ | |\n" ++
  "   ( (              |\\,`   `-^.               /^   ^  \\,'       `. ;\n" ++
  "    \\ \\             :    `-'   )             ( O   O   )           ;\n" ++
  "     \\ \\             \\        ;               `.=o=__,'            \\\n" ++
  "      \\ \\             `-.   ,'                  /         _,--.__   \\\n" ++
  "       \\ \\ ____________,'  (                   /  _ )   ,'   `-. `-. \\\n" ++
  "        ; '                ;                  / ,' /  ,'        \\ \\ \\ \\\n" ++
  "        \\                 /___,-.            / /  / ,'          (,_)(,_)\n" ++
  "         `,    ,_____|  ;'_____,'           (,;  (,,)\n" ++
  "       ,-\" \\  :      | :\n" ++
  "      ( .-\" \\ `.__   | |\n" ++
  "       \\__)  `.__,'  |__)"

/-- The slice `strings.Split(s, "\n")`, on the characters of `s`. -/
def splitNewline : List Char → List (List Char)
  | [] => [[]]
  | c :: cs =>
    if c = '\n' then [] :: splitNewline cs
    else match splitNewline cs with
      | [] => [[c]]
      | l :: ls => (c :: l) :: ls

/-- The slice `strings.Split(text, "\n")`. -/
def lines (text : String) : List String :=
  (splitNewline text.data).map String.mk

/-- The scan of `strings.Replace(s, old, new, -1)` for a non-empty `old`: matches are
taken left to right and do not overlap; `skip` counts the characters of the
current match still to pass over. -/
def replaceScan (old new : List Char) : Nat → List Char → List Char
  | _, [] => []
  | skip + 1, _ :: cs => replaceScan old new skip cs
  | 0, c :: cs =>
    if old.isPrefixOf (c :: cs) then new ++ replaceScan old new (old.length - 1) cs
    else c :: replaceScan old new 0 cs

/-- The text `strings.Replace(s, old, new, -1)`, for a non-empty `old`. -/
def Replace (s old new : String) : String :=
  String.mk (replaceScan old.data new.data 0 s.data)

/-- The test `strings.Contains(s, sub)`, on characters. -/
def containsChars (sub : List Char) : List Char → Bool
  | [] => sub.isEmpty
  | c :: cs => sub.isPrefixOf (c :: cs) || containsChars sub cs

/-- The test `strings.Contains(s, sub)`. -/
def Contains (s sub : String) : Bool :=
  containsChars sub.data s.data


/-! ## `main.go`: `MakeGradient` -/

/-- The ways a run of `MakeGradient` or `View` ends without a result. -/
inductive Fault where
  /-- The runtime error of an index expression `ramp[i]` with `i` outside the slice. -/
  | indexOutOfRange (index size : Nat)
  /-- The loop of `MakeRamp` was still running when the fuel ran out. -/
  | outOfFuel
  deriving DecidableEq, Repr

/-- The first loop of `MakeGradient`:
`for _, line := range lines { if len(line) > maxLength { maxLength = len(strings.Split(line, "")) } }`.
The test reads the byte count of the line, the assignment its character count. -/
def maxLengthLoop : List String → Nat → Nat
  | [], maxLength => maxLength
  | line :: rest, maxLength =>
    maxLengthLoop rest (if line.utf8ByteSize > maxLength then line.data.length else maxLength)

/-- The inner loop of `MakeGradient` over `chars := strings.Split(lines[i], "")`:
`for i, char := range chars { result += ...Foreground(term.Color(ramp[i]))... }`. -/
def paintChars (L : ColorLib) (ramp : List String) :
    List Char → Nat → String → Except Fault String
  | [], _, result => .ok result
  | char :: rest, i, result =>
    match ramp.get? i with
    | none => .error (.indexOutOfRange i ramp.length)
    | some color => paintChars L ramp rest (i + 1) (result ++ L.Foreground (String.singleton char) color)

/-- The outer loop of `MakeGradient`: each line is painted, then `result += "\n"`. -/
def paintLines (L : ColorLib) (ramp : List String) :
    List String → String → Except Fault String
  | [], result => .ok result
  | line :: rest, result =>
    match paintChars L ramp line.data 0 result with
    | .error e => .error e
    | .ok painted => paintLines L ramp rest (painted ++ "\n")

/-- The step count `MakeGradient` passes to `MakeRamp`: `float64(maxLength)`, the
whole number `maxLength` itself (the conversion is exact up to 2^53). -/
def gradientSteps (text : String) : Nat :=
  maxLengthLoop (lines text) 0

/-- The function `MakeGradient`. -/
def MakeGradient (L : ColorLib) (fuel : Nat) (text : String) : Except Fault String :=
  match MakeRamp L fuel "#B14FFF" "#00FFA3" (gradientSteps text) with
  | none => .error .outOfFuel
  | some ramp => paintLines L ramp (lines text) ""

/-! ## `main.go`: the session model -/

/-- The parts of bubbles (textinput, spinner, timer), bubbletea and lipgloss that
`main.go` uses. -/
structure Bubbles where
  /-- The type `textinput.Model`. -/
  TextInput : Type
  /-- The type `spinner.Model`. -/
  Spinner : Type
  /-- The type `timer.Model`. -/
  Timer : Type
  /-- The type `tea.KeyMsg`. -/
  KeyMsg : Type
  /-- The type `spinner.TickMsg`. -/
  SpinnerTickMsg : Type
  /-- The type `timer.TickMsg`. -/
  TimerTickMsg : Type
  /-- The type `timer.TimeoutMsg`. -/
  TimerTimeoutMsg : Type
  /-- The messages of every other type (window size, cursor blink, timer start and stop). -/
  OtherMsg : Type
  /-- The commands the components return from their `Update` (`nil` among them). -/
  ComponentCmd : Type
  /-- The text `msg.String()` of a key. -/
  keyString : KeyMsg → String
  /-- The test `msg.Type == tea.KeyEnter`. -/
  keyIsEnter : KeyMsg → Bool
  /-- The model `textinput.New()`. -/
  textinputNew : TextInput
  /-- The assignment `ti.Placeholder = s`. -/
  setPlaceholder : TextInput → String → TextInput
  /-- The call `ti.Focus()` (its command is dropped by the caller). -/
  focus : TextInput → TextInput
  /-- The assignment `ti.CharLimit = n`. -/
  setCharLimit : TextInput → Nat → TextInput
  /-- The assignment `ti.Width = n`. -/
  setWidth : TextInput → Nat → TextInput
  /-- The text `ti.Value()`. -/
  textinputValue : TextInput → String
  /-- The text `ti.View()`. -/
  textinputView : TextInput → String
  /-- The call `ti.Update(msg)`. -/
  textinputUpdate : TextInput → KeyMsg → TextInput × ComponentCmd
  /-- The model `spinner.New()` with `Spinner = spinner.Dot` and the foreground style 205. -/
  spinnerNew : Spinner
  /-- The text `sp.View()`. -/
  spinnerView : Spinner → String
  /-- The call `sp.Update(msg)`. -/
  spinnerUpdate : Spinner → SpinnerTickMsg → Spinner × ComponentCmd
  /-- The model `timer.NewWithInterval(timeout, interval)`, durations in nanoseconds. -/
  timerNewWithInterval : Nat → Nat → Timer
  /-- The text `t.View()`. -/
  timerView : Timer → String
  /-- The call `t.Update(msg)`. -/
  timerUpdate : Timer → TimerTickMsg → Timer × ComponentCmd
  /-- The rendering of `lipgloss.NewStyle().Bold(true).Italic(true)`. -/
  softwareStyle : String → String
  /-- The rendering of `lipgloss.NewStyle().Bold(true).Underline(true)` (`versionStyle`). -/
  versionStyle : String → String
  /-- The rendering of `lipgloss.NewStyle().Bold(true).Underline(true)` (`helloStyle`). -/
  helloStyle : String → String
  /-- The rendering of the padding style: top 0, right 2, bottom 2, left 2. -/
  paddingStyle : String → String

/-- The messages `Update` receives, one constructor per case of its type switch. -/
inductive Msg (B : Bubbles) where
  | notFoundMsg : Msg B
  | versionResultMsg (Version SoftwareName : String) : Msg B
  | KeyMsg (key : B.KeyMsg) : Msg B
  | spinnerTickMsg (tick : B.SpinnerTickMsg) : Msg B
  | timerTickMsg (tick : B.TimerTickMsg) : Msg B
  | timerTimeoutMsg (timeout : B.TimerTimeoutMsg) : Msg B
  | other (msg : B.OtherMsg) : Msg B

/-- The commands (`tea.Cmd`) that `Init` and `Update` return. -/
inductive Cmd (B : Bubbles) where
  /-- The `nil` command. -/
  | none : Cmd B
  /-- The command `tea.Quit`. -/
  | Quit : Cmd B
  /-- The command `fetchVersion(slug)`. -/
  | fetchVersion (slug : String) : Cmd B
  /-- The command `t.Init()` of the timer `t`. -/
  | timerInit (t : B.Timer) : Cmd B
  /-- The command `t.Start()` of the timer `t`. -/
  | timerStart (t : B.Timer) : Cmd B
  /-- The command `sp.Tick` of the spinner `sp`. -/
  | spinnerTick (sp : B.Spinner) : Cmd B
  /-- The command `textinput.Blink`. -/
  | Blink : Cmd B
  /-- A command returned by the `Update` of a component. -/
  | component (c : B.ComponentCmd) : Cmd B
  /-- The command `tea.Batch(cmds...)`. -/
  | Batch (cmds : List (Cmd B)) : Cmd B

/-- The struct `model`. -/
structure model (B : Bubbles) where
  term : String
  width : Int
  height : Int
  loading : Bool
  notFound : Bool
  textInput : B.TextInput
  latestVersion : String
  softwareName : String
  spinner : B.Spinner
  timer : B.Timer
  quitting : Bool

/-- The function `teaHandler`, on the terminal type and the `active` flag of `s.Pty()`. -/
def teaHandler (B : Bubbles) (ptyTerm : String) (active : Bool) : Option (model B) :=
  if !active then none
  else
    let ti := B.textinputNew
    let ti := B.setPlaceholder ti "Python"
    let ti := B.focus ti
    let ti := B.setCharLimit ti 156
    let ti := B.setWidth ti 20
    let sp := B.spinnerNew
    some {
      term := ptyTerm
      width := 0
      height := 0
      loading := false
      notFound := false
      textInput := ti
      latestVersion := ""
      softwareName := ""
      spinner := sp
      timer := B.timerNewWithInterval (5 * 1000000000) 1000000000
      quitting := false }

/-- The method `Init`. -/
def Init (B : Bubbles) (_m : model B) : Cmd B := .Blink

/-- The method `Update`. -/
def Update (B : Bubbles) (m : model B) : Msg B → model B × Cmd B
  | .notFoundMsg =>
    let m := { m with notFound := true }
    let m := { m with loading := false }
    (m, .Batch [.none, .timerInit m.timer, .timerStart m.timer])
  | .versionResultMsg Version SoftwareName =>
    let m := { m with latestVersion := Version }
    let m := { m with softwareName := SoftwareName }
    let m := { m with loading := false }
    (m, .Batch [.none, .timerInit m.timer, .timerStart m.timer])
  | .KeyMsg key =>
    if B.keyString key = "esc" ∨ B.keyString key = "ctrl+c" then (m, .Quit)
    else if B.keyIsEnter key then
      let m := { m with loading := true }
      (m, .fetchVersion (B.textinputValue m.textInput))
    else
      let r := B.textinputUpdate m.textInput key
      ({ m with textInput := r.1 }, .component r.2)
  | .spinnerTickMsg tick =>
    let r := B.spinnerUpdate m.spinner tick
    ({ m with spinner := r.1 }, .component r.2)
  | .timerTickMsg tick =>
    let r := B.timerUpdate m.timer tick
    ({ m with timer := r.1 }, .component r.2)
  | .timerTimeoutMsg _ =>
    ({ m with quitting := true }, .Quit)
  | .other _ => (m, .spinnerTick m.spinner)

/-- The `header` and the text `s` of `View` before the last assignment to `s`. -/
def viewParts (B : Bubbles) (m : model B) : String × String :=
  let s := ""
  let header := cat
  if m.loading then
    (header, s ++ (B.spinnerView m.spinner ++ " Fetching latest version for " ++
      B.textinputValue m.textInput ++ "...\n\n"))
  else if m.notFound then
    let header := Replace header "WOW" "404"
    let header := Replace header "O   O" "x   x"
    let s := s ++ ("ðŸ˜¿ No software found for " ++ B.softwareStyle (B.textinputValue m.textInput))
    let s := s ++ "\n\n"
    (header, s ++ ("Closing in " ++ B.timerView m.timer ++ " ðŸ‘‹"))
  else if m.latestVersion ≠ "" then
    let s := s ++ ("Latest version for " ++ B.softwareStyle m.softwareName ++ " is " ++
      B.versionStyle m.latestVersion)
    let s := s ++ "\n\n"
    (header, s ++ ("Closing in " ++ B.timerView m.timer ++ " ðŸ‘‹"))
  else
    let s := s ++ B.helloStyle "Hello there! Welcome to latest.cat ðŸˆâ€!"
    let s := s ++ "\n\n"
    let s := s ++ "What software are you looking for?\n\n"
    (header, s ++ B.textinputView m.textInput)

/-- The method `View`. -/
def View (L : ColorLib) (B : Bubbles) (fuel : Nat) (m : model B) : Except Fault String :=
  match MakeGradient L fuel (viewParts B m).1 with
  | .error e => .error e
  | .ok gradient => .ok (B.paddingStyle ("\n" ++ gradient ++ "\n\n" ++ (viewParts B m).2))


/-- The branches of the `if` chain of `View`, in its order. -/
inductive Branch where
  /-- The branch of `m.loading`: the spinner and "Fetching latest version for". -/
  | fetching
  /-- The branch of `m.notFound`: the 404 banner and "No software found for". -/
  | notFound
  /-- The branch of `m.latestVersion != ""`: "Latest version for". -/
  | found
  /-- The last branch: the welcome text and the input field. -/
  | welcome
  deriving DecidableEq, Repr

/-- The branch of `View` a state selects: the conditions of its `if` chain. -/
def viewBranch (B : Bubbles) (m : model B) : Branch :=
  if m.loading then .fetching
  else if m.notFound then .notFound
  else if m.latestVersion ≠ "" then .found
  else .welcome

mutual
/-- The slugs of the lookups a command issues: its `fetchVersion` commands. -/
def Cmd.lookups {B : Bubbles} : Cmd B → List String
  | .fetchVersion slug => [slug]
  | .Batch cmds => Cmd.lookupsOfList cmds
  | _ => []
/-- The slugs of the lookups a list of commands issues. -/
def Cmd.lookupsOfList {B : Bubbles} : List (Cmd B) → List String
  | [] => []
  | c :: cs => c.lookups ++ Cmd.lookupsOfList cs
end

mutual
/-- Whether a command starts the countdown: it holds `timer.Init()` or `timer.Start()`. -/
def Cmd.startsCountdown {B : Bubbles} : Cmd B → Bool
  | .timerInit _ => true
  | .timerStart _ => true
  | .Batch cmds => Cmd.startsCountdownList cmds
  | _ => false
/-- Whether one of a list of commands starts the countdown. -/
def Cmd.startsCountdownList {B : Bubbles} : List (Cmd B) → Bool
  | [] => false
  | c :: cs => c.startsCountdown || Cmd.startsCountdownList cs
end

/-- The state after a sequence of messages, each handled by `Update`. -/
def run (B : Bubbles) (m : model B) (msgs : List (Msg B)) : model B :=
  msgs.foldl (fun s msg => (Update B s msg).1) m

/-- The states a session passes through: the model of `teaHandler` and every state
`Update` makes of a reachable one. -/
inductive Reachable (B : Bubbles) : model B → Prop where
  | init (ptyTerm : String) (m : model B) : teaHandler B ptyTerm true = some m → Reachable B m
  | step (m : model B) (msg : Msg B) : Reachable B m → Reachable B (Update B m msg).1

/-! ## `main.go`: `fetchVersion` -/

/-- The variable `FIND_VERSION_QUERY`. -/
def FIND_VERSION_QUERY : String :=
  "\nquery FindVersion($slug: String!) \x7b\n\tfindVersion(slug: $slug) \x7b\n\t\tlatestVersion\n" ++
  "\t\tsoftware \x7b\n\t\t\tslug\n\t\t\tname\n\t\t\x7d\n\t\x7d\n\x7d\n"

/-- The struct `Variables`. -/
structure Variables where
  Slug : String

/-- The struct `Operation`. -/
structure Operation where
  Query : String
  Variables : Variables

/-- The struct `Software`. -/
structure Software where
  Slug : String
  Name : String

/-- The struct `FindVersion`. -/
structure FindVersion where
  LatestVersion : String
  Software : Software

/-- The struct `Data`; the pointer `FindVersion` is `none` when nil. -/
structure Data where
  FindVersion : Option FindVersion

/-- The struct `FindVersionResponse`; the pointer `Data` is `none` when nil. -/
structure FindVersionResponse where
  Data : Option Data

/-- The calls `fetchVersion` makes into encoding/json and net/http. -/
structure Net where
  /-- The type of a response body. -/
  Body : Type
  /-- The call `json.Marshal(values)`: the bytes, or the error. -/
  Marshal : Operation → Except String String
  /-- The call `http.Post(url, contentType, body)`: the response body, or the error. -/
  Post : String → String → String → Except String Body
  /-- The value of `res` after `json.NewDecoder(response.Body).Decode(&res)`, whose
  error the caller drops. -/
  Decode : Body → FindVersionResponse

/-- The ways a run of the command of `fetchVersion` ends. -/
inductive FetchResult (B : Bubbles) where
  /-- The command returns a message. -/
  | msg (m : Msg B)
  /-- The call `log.Fatal(err)`: the error is logged and the process exits with status 1. -/
  | fatal (err : String)
  /-- The runtime error of reading a field through a nil pointer. -/
  | nilDereference

/-- The command `fetchVersion(slug)` returns, run against the network `N`. -/
def fetchVersion (B : Bubbles) (N : Net) (slug : String) : FetchResult B :=
  let values : Operation := { Query := FIND_VERSION_QUERY, Variables := { Slug := slug } }
  match N.Marshal values with
  | .error err => .fatal err
  | .ok json_data =>
    match N.Post "https://latest-cat.fly.dev/graphql" "application/json" json_data with
    | .error err => .fatal err
    | .ok body =>
      let res := N.Decode body
      match res.Data with
      | none => .nilDereference
      | some data =>
        match data.FindVersion with
        | none => .msg .notFoundMsg
        | some found =>
          .msg (.versionResultMsg found.LatestVersion found.Software.Name)

/-! ## Sample instances of the libraries

They fix the types left open above so that the definitions can be evaluated on
concrete sessions. The theorems stated for every library do not depend on them. -/

/-- The keys of the sample keyboard. -/
inductive SampleKey where
  | enter
  | esc
  | ctrlC
  | backspace
  | rune (c : Char)
  deriving DecidableEq, Repr

/-- The text input of the sample library. -/
structure SampleInput where
  value : String
  placeholder : String
  focused : Bool
  charLimit : Nat
  width : Nat
  deriving DecidableEq, Repr

/-- The countdown of the sample library: time left and tick interval, in nanoseconds. -/
structure SampleTimer where
  timeout : Nat
  interval : Nat
  deriving DecidableEq, Repr

/-- A sample instance of the component library. -/
@[reducible]
def sampleUi : Bubbles where
  TextInput := SampleInput
  Spinner := Nat
  Timer := SampleTimer
  KeyMsg := SampleKey
  SpinnerTickMsg := Unit
  TimerTickMsg := Unit
  TimerTimeoutMsg := Unit
  OtherMsg := Unit
  ComponentCmd := Unit
  keyString := fun k =>
    match k with
    | .enter => "enter"
    | .esc => "esc"
    | .ctrlC => "ctrl+c"
    | .backspace => "backspace"
    | .rune c => String.singleton c
  keyIsEnter := fun k =>
    match k with
    | .enter => true
    | _ => false
  textinputNew := { value := "", placeholder := "", focused := false, charLimit := 0, width := 0 }
  setPlaceholder := fun ti s => { ti with placeholder := s }
  focus := fun ti => { ti with focused := true }
  setCharLimit := fun ti n => { ti with charLimit := n }
  setWidth := fun ti n => { ti with width := n }
  textinputValue := fun ti => ti.value
  textinputView := fun ti => "> " ++ ti.value
  textinputUpdate := fun ti k =>
    match k with
    | .rune c =>
      if ti.focused ∧ ti.value.length < ti.charLimit then ({ ti with value := ti.value.push c }, ())
      else (ti, ())
    | .backspace => ({ ti with value := String.mk ti.value.data.dropLast }, ())
    | _ => (ti, ())
  spinnerNew := 0
  spinnerView := fun _ => "*"
  spinnerUpdate := fun sp _ => (sp + 1, ())
  timerNewWithInterval := fun timeout interval => { timeout := timeout, interval := interval }
  timerView := fun t => toString (t.timeout / 1000000000) ++ "s"
  timerUpdate := fun t _ => ({ t with timeout := t.timeout - t.interval }, ())
  softwareStyle := fun s => s
  versionStyle := fun s => s
  helloStyle := fun s => s
  paddingStyle := fun s => s

/-- The model `teaHandler` builds for a session of the sample library on an xterm. -/
def sampleInit : model sampleUi :=
  { term := "xterm", width := 0, height := 0, loading := false, notFound := false,
    textInput := { value := "", placeholder := "Python", focused := true, charLimit := 156, width := 20 },
    latestVersion := "", softwareName := "", spinner := 0,
    timer := { timeout := 5000000000, interval := 1000000000 }, quitting := false }

/-- The sample session in Found: after Enter and the result Python 3.12.1, with the
countdown running and `quitting` still false. -/
def sampleFound : model sampleUi :=
  { term := "xterm", width := 0, height := 0, loading := false, notFound := false,
    textInput := { value := "", placeholder := "Python", focused := true, charLimit := 156, width := 20 },
    latestVersion := "3.12.1", softwareName := "Python", spinner := 0,
    timer := { timeout := 5000000000, interval := 1000000000 }, quitting := false }

/-- A sample network whose every request fails in transport. -/
def sampleNetDown : Net where
  Body := String
  Marshal := fun op => .ok op.Variables.Slug
  Post := fun _ _ _ => .error "dial tcp: connection refused"
  Decode := fun _ => { Data := none }

/-- A sample network that knows one software, python; its response body is the
latest version, or empty when there is none. -/
def sampleNetUp : Net where
  Body := String
  Marshal := fun op => .ok op.Variables.Slug
  Post := fun _ _ slug => .ok (if slug = "python" then "3.12.1" else "")
  Decode := fun body =>
    if body = "" then { Data := some { FindVersion := none } }
    else { Data := some { FindVersion := some { LatestVersion := body, Software := { Slug := "python", Name := "Python" } } } }


/-! ## What the ramp and the gradient are expected to be -/

/-- The texts of a list, one after the other. -/
def concat : List String → String
  | [] => ""
  | s :: rest => s ++ concat rest

/-- The ramp of `steps` colours: the blend at `i/steps` for `i = 0, ..., steps - 1`,
each in hexadecimal. -/
def rampColors (L : ColorLib) (colorA colorB : String) (steps : Nat) : List String :=
  (List.range steps).map
    (fun i => ColorToHex L (L.BlendLuv (L.Hex colorA) (L.Hex colorB) i steps))

/-- A painted row: the characters of the line in their order, the character at
position `i` in the colour `i` of the ramp, and a newline at the end. -/
def paintedRow (L : ColorLib) (ramp : List String) (line : String) : String :=
  concat (List.zipWith (fun char color => L.Foreground (String.singleton char) color)
    line.data ramp) ++ "\n"

/-- A painted text: one painted row per line. -/
def paintedText (L : ColorLib) (ramp : List String) (ls : List String) : String :=
  concat (ls.map (paintedRow L ramp))

/-- The number of characters of the longest line of a text. -/
def longestLine (text : String) : Nat :=
  ((lines text).map (fun line => line.data.length)).foldr max 0

/-! ## Lemmas on the ramp -/

theorem rampLoop_stuck (L : ColorLib) (cA cB : L.Color) (steps : Nat) (hs : f64Exact < steps) :
    ∀ (fuel i : Nat) (s : List String), i ≤ f64Exact → rampLoop L cA cB steps fuel i s = none := by
  intro fuel
  induction fuel with
  | zero => intro i s _; rfl
  | succ k ih =>
    intro i s hi
    unfold rampLoop
    rw [if_pos (by omega)]
    apply ih
    unfold f64Succ
    split <;> omega

/-! ## The session state machine -/

/-- C1, as stated, fails: in the initial state, which is not in Loading, a
not-found result is not discarded. `Update` records it (`notFound` turns true)
and returns the commands that start the countdown. -/
theorem stale_result_not_discarded :
    teaHandler sampleUi "xterm" true = some sampleInit ∧
    sampleInit.loading = false ∧
    (Update sampleUi sampleInit .notFoundMsg).1.notFound = true ∧
    sampleInit.notFound = false ∧
    (Update sampleUi sampleInit .notFoundMsg).2.startsCountdown = true := by
  refine ⟨rfl, rfl, rfl, rfl, rfl⟩

/-- C1, amended: `Update` applies a lookup result in every state, in Loading or
not. A `notFoundMsg` sets `notFound` and clears `loading`, leaving the version
and the name; a `versionResultMsg` stores its version and name and clears
`loading`, leaving `notFound`; both return the commands that start the
countdown and issue no lookup. -/
theorem lookup_result_applied_in_every_state (B : Bubbles) (m : model B) (v n : String) :
    ((Update B m .notFoundMsg).1.loading = false ∧
      (Update B m .notFoundMsg).1.notFound = true ∧
      (Update B m .notFoundMsg).1.latestVersion = m.latestVersion ∧
      (Update B m .notFoundMsg).1.softwareName = m.softwareName ∧
      (Update B m .notFoundMsg).2 = .Batch [.none, .timerInit m.timer, .timerStart m.timer] ∧
      (Update B m .notFoundMsg).2.startsCountdown = true ∧
      (Update B m .notFoundMsg).2.lookups = []) ∧
    ((Update B m (.versionResultMsg v n)).1.loading = false ∧
      (Update B m (.versionResultMsg v n)).1.notFound = m.notFound ∧
      (Update B m (.versionResultMsg v n)).1.latestVersion = v ∧
      (Update B m (.versionResultMsg v n)).1.softwareName = n ∧
      (Update B m (.versionResultMsg v n)).2 = .Batch [.none, .timerInit m.timer, .timerStart m.timer] ∧
      (Update B m (.versionResultMsg v n)).2.startsCountdown = true ∧
      (Update B m (.versionResultMsg v n)).2.lookups = []) := by
  refine ⟨⟨rfl, rfl, rfl, rfl, rfl, ?_, ?_⟩, ⟨rfl, rfl, rfl, rfl, rfl, ?_, ?_⟩⟩ <;>
    simp [Update, Cmd.startsCountdown, Cmd.startsCountdownList, Cmd.lookups, Cmd.lookupsOfList]

/-- C4: in every state, `Update` on a key whose string is "esc" or "ctrl+c" returns
the state as it is together with `tea.Quit`, a command that issues no lookup and
starts no countdown. -/
theorem cancel_quits_at_once (B : Bubbles) (m : model B) (key : B.KeyMsg)
    (h : B.keyString key = "esc" ∨ B.keyString key = "ctrl+c") :
    Update B m (.KeyMsg key) = (m, .Quit) ∧
    (Update B m (.KeyMsg key)).2.lookups = [] ∧
    (Update B m (.KeyMsg key)).2.startsCountdown = false := by
  have hu : Update B m (.KeyMsg key) = (m, .Quit) := by
    simp only [Update]
    rw [if_pos h]
  rw [hu]
  exact ⟨rfl, by simp [Cmd.lookups], by simp [Cmd.startsCountdown]⟩

/-- C4 at a session of the sample library that is in Loading: escape quits. -/
theorem cancel_quits_at_once_witness :
    Update sampleUi { sampleInit with loading := true } (.KeyMsg SampleKey.esc) =
        ({ sampleInit with loading := true }, .Quit) ∧
    (Update sampleUi { sampleInit with loading := true } (.KeyMsg SampleKey.esc)).2.lookups = [] ∧
    (Update sampleUi { sampleInit with loading := true } (.KeyMsg SampleKey.esc)).2.startsCountdown = false :=
  cancel_quits_at_once sampleUi { sampleInit with loading := true } SampleKey.esc (Or.inl rfl)

/-- C5, as stated, fails: in a session that is in Loading, the Enter key issues a
lookup again (for the buffer as it stands). -/
theorem enter_while_loading_issues_lookup :
    ({ sampleInit with loading := true } : model sampleUi).loading = true ∧
    sampleUi.keyString SampleKey.enter ≠ "esc" ∧
    sampleUi.keyString SampleKey.enter ≠ "ctrl+c" ∧
    (Update sampleUi { sampleInit with loading := true } (.KeyMsg SampleKey.enter)).2.lookups = [""] := by
  refine ⟨rfl, by decide, by decide, rfl⟩

/-- C5, amended: in Loading, for a key that is neither "esc" nor "ctrl+c", Enter
leaves the whole state as it is (the buffer too) and issues one lookup for the
buffer; every other key is handed to the text input, whose `Update` gives the
new text input and the command, and issues no lookup; `loading` stays true and
no key changes the result fields or starts the countdown. -/
theorem keys_while_loading (B : Bubbles) (m : model B) (key : B.KeyMsg)
    (hl : m.loading = true) (hesc : B.keyString key ≠ "esc") (hctrl : B.keyString key ≠ "ctrl+c") :
    (B.keyIsEnter key = true →
      Update B m (.KeyMsg key) = (m, .fetchVersion (B.textinputValue m.textInput)) ∧
      (Update B m (.KeyMsg key)).2.lookups = [B.textinputValue m.textInput]) ∧
    (B.keyIsEnter key = false →
      (Update B m (.KeyMsg key)).1.textInput = (B.textinputUpdate m.textInput key).1 ∧
      (Update B m (.KeyMsg key)).2 = .component (B.textinputUpdate m.textInput key).2 ∧
      (Update B m (.KeyMsg key)).2.lookups = []) ∧
    (Update B m (.KeyMsg key)).1.loading = true ∧
    (Update B m (.KeyMsg key)).1.notFound = m.notFound ∧
    (Update B m (.KeyMsg key)).1.latestVersion = m.latestVersion ∧
    (Update B m (.KeyMsg key)).1.softwareName = m.softwareName ∧
    (Update B m (.KeyMsg key)).2.startsCountdown = false := by
  have hq : ¬ (B.keyString key = "esc" ∨ B.keyString key = "ctrl+c") := by
    rintro (h | h)
    · exact hesc h
    · exact hctrl h
  cases he : B.keyIsEnter key with
  | true =>
    have hm : ({ m with loading := true } : model B) = m := by
      cases m
      simp only [model.mk.injEq] at *
      simp [hl]
    have hu : Update B m (.KeyMsg key) = (m, .fetchVersion (B.textinputValue m.textInput)) := by
      simp only [Update]
      rw [if_neg hq, if_pos he, hm]
    rw [hu]
    simp [Cmd.lookups, Cmd.startsCountdown, hl]
  | false =>
    have hu : Update B m (.KeyMsg key) =
        ({ m with textInput := (B.textinputUpdate m.textInput key).1 },
          .component (B.textinputUpdate m.textInput key).2) := by
      simp only [Update]
      rw [if_neg hq, if_neg (by simp [he])]
    rw [hu]
    simp [Cmd.lookups, Cmd.startsCountdown, hl]

/-- C5, amended, at a session of the sample library in Loading with the key `a`. -/
theorem keys_while_loading_witness :
    (sampleUi.keyIsEnter (SampleKey.rune 'a') = true →
      Update sampleUi { sampleInit with loading := true } (.KeyMsg (SampleKey.rune 'a')) =
        ({ sampleInit with loading := true },
          .fetchVersion (sampleUi.textinputValue sampleInit.textInput)) ∧
      (Update sampleUi { sampleInit with loading := true } (.KeyMsg (SampleKey.rune 'a'))).2.lookups =
        [sampleUi.textinputValue sampleInit.textInput]) ∧
    (sampleUi.keyIsEnter (SampleKey.rune 'a') = false →
      (Update sampleUi { sampleInit with loading := true } (.KeyMsg (SampleKey.rune 'a'))).1.textInput =
        (sampleUi.textinputUpdate sampleInit.textInput (SampleKey.rune 'a')).1 ∧
      (Update sampleUi { sampleInit with loading := true } (.KeyMsg (SampleKey.rune 'a'))).2 =
        .component (sampleUi.textinputUpdate sampleInit.textInput (SampleKey.rune 'a')).2 ∧
      (Update sampleUi { sampleInit with loading := true } (.KeyMsg (SampleKey.rune 'a'))).2.lookups = []) ∧
    (Update sampleUi { sampleInit with loading := true } (.KeyMsg (SampleKey.rune 'a'))).1.loading = true ∧
    (Update sampleUi { sampleInit with loading := true } (.KeyMsg (SampleKey.rune 'a'))).1.notFound =
      sampleInit.notFound ∧
    (Update sampleUi { sampleInit with loading := true } (.KeyMsg (SampleKey.rune 'a'))).1.latestVersion =
      sampleInit.latestVersion ∧
    (Update sampleUi { sampleInit with loading := true } (.KeyMsg (SampleKey.rune 'a'))).1.softwareName =
      sampleInit.softwareName ∧
    (Update sampleUi { sampleInit with loading := true } (.KeyMsg (SampleKey.rune 'a'))).2.startsCountdown =
      false :=
  keys_while_loading sampleUi { sampleInit with loading := true } (SampleKey.rune 'a') rfl
    (by decide) (by decide)

/-! ## Lemmas on the gradient -/

theorem rampLoop_eq (L : ColorLib) (cA cB : L.Color) (steps : Nat) (hs : steps ≤ f64Exact) :
    ∀ (fuel i : Nat) (s : List String), i ≤ steps → steps - i < fuel →
      rampLoop L cA cB steps fuel i s =
        some (s ++ (List.range' i (steps - i)).map
          (fun j => ColorToHex L (L.BlendLuv cA cB j steps))) := by
  intro fuel
  induction fuel with
  | zero => intro i s _ h; omega
  | succ k ih =>
    intro i s hi hf
    unfold rampLoop
    by_cases hlt : i < steps
    · have hsucc : f64Succ i = i + 1 := by
        unfold f64Succ
        rw [if_pos (by omega)]
      rw [if_pos hlt, hsucc, ih (i + 1) _ (by omega) (by omega)]
      have hd : steps - i = (steps - (i + 1)) + 1 := by omega
      rw [hd, List.range'_succ]
      simp
    · rw [if_neg hlt]
      have hz : steps - i = 0 := by omega
      simp [hz]

theorem MakeRamp_eq (L : ColorLib) (fuel : Nat) (colorA colorB : String) (steps : Nat)
    (hs : steps ≤ f64Exact) (hf : steps < fuel) :
    MakeRamp L fuel colorA colorB steps = some (rampColors L colorA colorB steps) := by
  unfold MakeRamp rampColors
  rw [rampLoop_eq L _ _ steps hs fuel 0 [] (Nat.zero_le _) (by omega)]
  simp [List.range_eq_range']

theorem rampColors_length (L : ColorLib) (colorA colorB : String) (steps : Nat) :
    (rampColors L colorA colorB steps).length = steps := by
  simp [rampColors]

theorem paintChars_eq (L : ColorLib) (ramp : List String) :
    ∀ (chars : List Char) (i : Nat) (result : String), chars.length + i ≤ ramp.length →
      paintChars L ramp chars i result =
        .ok (result ++ concat (List.zipWith
          (fun char color => L.Foreground (String.singleton char) color) chars (ramp.drop i))) := by
  intro chars
  induction chars with
  | nil => intro i result _; simp [paintChars, concat]
  | cons c rest ih =>
    intro i result h
    have hi : i < ramp.length := by
      simp only [List.length_cons] at h
      omega
    have hget : ramp.get? i = some (ramp.get ⟨i, hi⟩) := List.get?_eq_get hi
    have hdrop : ramp.drop i = ramp.get ⟨i, hi⟩ :: ramp.drop (i + 1) := by
      simp
    unfold paintChars
    rw [hget]
    simp only
    rw [ih (i + 1) _ (by simp only [List.length_cons] at h; omega), hdrop]
    simp [concat, String.append_assoc]

theorem paintLines_eq (L : ColorLib) (ramp : List String) :
    ∀ (ls : List String) (result : String), (∀ line ∈ ls, line.data.length ≤ ramp.length) →
      paintLines L ramp ls result = .ok (result ++ paintedText L ramp ls) := by
  intro ls
  induction ls with
  | nil => intro result _; simp [paintLines, paintedText, concat]
  | cons line rest ih =>
    intro result h
    unfold paintLines
    rw [paintChars_eq L ramp line.data 0 result (by simpa using h line (List.mem_cons_self _ _))]
    simp only
    rw [ih _ (fun l hl => h l (List.mem_cons_of_mem _ hl))]
    simp [paintedText, paintedRow, concat, String.append_assoc]

theorem MakeGradient_eq (L : ColorLib) (fuel : Nat) (text : String)
    (hs : gradientSteps text ≤ f64Exact) (hf : gradientSteps text < fuel)
    (hfit : ∀ line ∈ lines text, line.data.length ≤ gradientSteps text) :
    MakeGradient L fuel text =
      .ok (paintedText L (rampColors L "#B14FFF" "#00FFA3" (gradientSteps text)) (lines text)) := by
  unfold MakeGradient
  rw [MakeRamp_eq L fuel _ _ _ hs hf]
  simp only
  rw [paintLines_eq L _ (lines text) "" (by simpa [rampColors_length] using hfit)]
  simp

theorem maxLengthLoop_eq_max :
    ∀ (ls : List String) (m : Nat), (∀ line ∈ ls, line.utf8ByteSize = line.data.length) →
      maxLengthLoop ls m = max m ((ls.map (fun line => line.data.length)).foldr max 0) := by
  intro ls
  induction ls with
  | nil => intro m _; simp [maxLengthLoop]
  | cons line rest ih =>
    intro m h
    unfold maxLengthLoop
    rw [ih _ (fun l hl => h l (List.mem_cons_of_mem _ hl)), h line (List.mem_cons_self _ _)]
    simp only [List.map_cons, List.foldr_cons]
    split <;> omega

theorem length_le_foldr_max :
    ∀ (ns : List Nat) (n : Nat), n ∈ ns → n ≤ ns.foldr max 0 := by
  intro ns
  induction ns with
  | nil => intro n h; cases h
  | cons k rest ih =>
    intro n h
    simp only [List.foldr_cons]
    rcases List.mem_cons.mp h with h | h
    · subst h; exact Nat.le_max_left _ _
    · exact Nat.le_trans (ih n h) (Nat.le_max_right _ _)

theorem line_le_longestLine (text : String) (line : String) (h : line ∈ lines text) :
    line.data.length ≤ longestLine text :=
  length_le_foldr_max _ _ (List.mem_map.mpr ⟨line, h, rfl⟩)

theorem gradientSteps_eq_longestLine (text : String)
    (h : ∀ line ∈ lines text, line.utf8ByteSize = line.data.length) :
    gradientSteps text = longestLine text := by
  unfold gradientSteps longestLine
  rw [maxLengthLoop_eq_max _ _ h]
  simp

/-- On a text whose lines have as many bytes as characters (ASCII text), the ramp
has one colour per character of the longest line and `MakeGradient` returns the
painted text. -/
theorem MakeGradient_single_byte (L : ColorLib) (fuel : Nat) (text : String)
    (h : ∀ line ∈ lines text, line.utf8ByteSize = line.data.length)
    (hs : longestLine text ≤ f64Exact) (hf : longestLine text < fuel) :
    MakeGradient L fuel text =
      .ok (paintedText L (rampColors L "#B14FFF" "#00FFA3" (longestLine text)) (lines text)) := by
  have hg := gradientSteps_eq_longestLine text h
  rw [MakeGradient_eq L fuel text (by rw [hg]; exact hs) (by rw [hg]; exact hf)
    (fun line hl => by rw [hg]; exact line_le_longestLine text line hl), hg]

/-- The banner with the two replacements of the not-found branch of `View`. -/
theorem cat_facts :
    longestLine cat = 72 ∧
    (lines cat).all (fun line => line.utf8ByteSize = line.data.length) = true ∧
    longestLine (Replace (Replace cat "WOW" "404") "O   O" "x   x") = 72 ∧
    (lines (Replace (Replace cat "WOW" "404") "O   O" "x   x")).all
      (fun line => line.utf8ByteSize = line.data.length) = true := by
  refine ⟨by rfl, by rfl, by rfl, by rfl⟩

theorem viewParts_header (B : Bubbles) (m : model B) :
    (viewParts B m).1 =
      if m.loading = false ∧ m.notFound = true then Replace (Replace cat "WOW" "404") "O   O" "x   x"
      else cat := by
  unfold viewParts
  cases hl : m.loading <;> cases hn : m.notFound <;> simp
  split <;> rfl

theorem viewParts_text (B : Bubbles) (m : model B) :
    (viewParts B m).2 =
      match viewBranch B m with
      | .fetching => B.spinnerView m.spinner ++ " Fetching latest version for " ++
          B.textinputValue m.textInput ++ "...\n\n"
      | .notFound => "ðŸ˜¿ No software found for " ++ B.softwareStyle (B.textinputValue m.textInput) ++
          "\n\n" ++ "Closing in " ++ B.timerView m.timer ++ " ðŸ‘‹"
      | .found => "Latest version for " ++ B.softwareStyle m.softwareName ++ " is " ++
          B.versionStyle m.latestVersion ++ "\n\n" ++ "Closing in " ++ B.timerView m.timer ++ " ðŸ‘‹"
      | .welcome => B.helloStyle "Hello there! Welcome to latest.cat ðŸˆâ€!" ++ "\n\n" ++
          "What software are you looking for?\n\n" ++ B.textinputView m.textInput := by
  unfold viewParts viewBranch
  cases hl : m.loading <;> cases hn : m.notFound <;>
    simp only [Bool.false_eq_true, if_true, if_false, String.append_assoc, String.empty_append]
  split <;> rfl

/-- The method `View` returns a frame in every state, given fuel for the 72 steps
of the ramp: the painted banner, a blank line and the text of the branch, inside
the padding. -/
theorem View_eq (L : ColorLib) (B : Bubbles) (fuel : Nat) (m : model B) (hf : 72 < fuel) :
    View L B fuel m =
      .ok (B.paddingStyle ("\n" ++
        paintedText L (rampColors L "#B14FFF" "#00FFA3" 72) (lines (viewParts B m).1) ++
        "\n\n" ++ (viewParts B m).2)) := by
  have hg : MakeGradient L fuel (viewParts B m).1 =
      .ok (paintedText L (rampColors L "#B14FFF" "#00FFA3" 72) (lines (viewParts B m).1)) := by
    rw [viewParts_header]
    split
    · have h := MakeGradient_single_byte L fuel (Replace (Replace cat "WOW" "404") "O   O" "x   x")
        (by simpa using List.all_eq_true.mp cat_facts.2.2.2)
        (by rw [cat_facts.2.2.1]; unfold f64Exact; omega) (by rw [cat_facts.2.2.1]; exact hf)
      rw [h, cat_facts.2.2.1]
    · have h := MakeGradient_single_byte L fuel cat
        (by simpa using List.all_eq_true.mp cat_facts.2.1)
        (by rw [cat_facts.1]; unfold f64Exact; omega) (by rw [cat_facts.1]; exact hf)
      rw [h, cat_facts.1]
  unfold View
  rw [hg]

/-- A run that holds no not-found result keeps `notFound` false. -/
theorem run_keeps_notFound_false (B : Bubbles) :
    ∀ (msgs : List (Msg B)) (m : model B), (∀ msg ∈ msgs, msg ≠ .notFoundMsg) →
      m.notFound = false → (run B m msgs).notFound = false := by
  intro msgs
  induction msgs with
  | nil => intro m _ h; exact h
  | cons msg rest ih =>
    intro m hall h
    have hstep : (Update B m msg).1.notFound = false := by
      cases msg with
      | notFoundMsg => exact absurd rfl (hall _ (List.mem_cons_self _ _))
      | KeyMsg key =>
        simp only [Update]
        split
        · exact h
        · split <;> exact h
      | _ => exact h
    exact ih _ (fun x hx => hall x (List.mem_cons_of_mem _ hx)) hstep

/-- C2, as stated, fails: after a not-found result the Enter key puts the session
in Loading again with `notFound` still set; a Found result for Python 3.12.1
then clears `loading` and stores version and name, and `View` still takes its
not-found branch. -/
theorem found_result_after_not_found_renders_not_found :
    Reachable sampleUi
      (run sampleUi sampleInit [.KeyMsg SampleKey.enter, .notFoundMsg, .KeyMsg SampleKey.enter]) ∧
    (run sampleUi sampleInit
      [.KeyMsg SampleKey.enter, .notFoundMsg, .KeyMsg SampleKey.enter]).loading = true ∧
    (Update sampleUi
      (run sampleUi sampleInit [.KeyMsg SampleKey.enter, .notFoundMsg, .KeyMsg SampleKey.enter])
      (.versionResultMsg "3.12.1" "Python")).1.latestVersion = "3.12.1" ∧
    viewBranch sampleUi (Update sampleUi
      (run sampleUi sampleInit [.KeyMsg SampleKey.enter, .notFoundMsg, .KeyMsg SampleKey.enter])
      (.versionResultMsg "3.12.1" "Python")).1 = .notFound ∧
    (viewParts sampleUi (Update sampleUi
      (run sampleUi sampleInit [.KeyMsg SampleKey.enter, .notFoundMsg, .KeyMsg SampleKey.enter])
      (.versionResultMsg "3.12.1" "Python")).1).2 =
        "ðŸ˜¿ No software found for \n\nClosing in 5s ðŸ‘‹" := by
  refine ⟨?_, rfl, rfl, rfl, by rfl⟩
  exact Reachable.step _ _ (Reachable.step _ _ (Reachable.step _ _
    (Reachable.init "xterm" sampleInit rfl)))

/-- C2, amended: in every state with `notFound` false, so in every Loading state
that no not-found result preceded, `Update` on a Found result with a non-empty
version `v` and the name `n` clears `loading`, stores `v` and `n` and returns the
commands that start the countdown; `View` then returns the frame of its found
branch: the unmodified banner, "Latest version for n is v" and the "Closing in"
countdown. -/
theorem found_result_renders_found (L : ColorLib) (B : Bubbles) (m : model B) (v n : String)
    (fuel : Nat) (hnf : m.notFound = false) (hv : v ≠ "") (hf : 72 < fuel) :
    (Update B m (.versionResultMsg v n)).1.loading = false ∧
    (Update B m (.versionResultMsg v n)).1.latestVersion = v ∧
    (Update B m (.versionResultMsg v n)).1.softwareName = n ∧
    (Update B m (.versionResultMsg v n)).2.startsCountdown = true ∧
    viewBranch B (Update B m (.versionResultMsg v n)).1 = .found ∧
    View L B fuel (Update B m (.versionResultMsg v n)).1 =
      .ok (B.paddingStyle ("\n" ++
        paintedText L (rampColors L "#B14FFF" "#00FFA3" 72) (lines cat) ++ "\n\n" ++
        ("Latest version for " ++ B.softwareStyle n ++ " is " ++ B.versionStyle v ++
          "\n\n" ++ "Closing in " ++ B.timerView m.timer ++ " ðŸ‘‹"))) := by
  have hb : viewBranch B (Update B m (.versionResultMsg v n)).1 = .found := by
    simp [viewBranch, Update, hnf, hv]
  refine ⟨rfl, rfl, rfl, ?_, hb, ?_⟩
  · simp [Update, Cmd.startsCountdown, Cmd.startsCountdownList]
  · rw [View_eq L B fuel _ hf, viewParts_text, hb, viewParts_header]
    simp only [Update, hnf]
    rfl

/-- C2, amended, at the sample session in Loading and the result Python 3.12.1. -/
theorem found_result_renders_found_witness :
    (Update sampleUi { sampleInit with loading := true }
      (.versionResultMsg "3.12.1" "Python")).1.loading = false ∧
    (Update sampleUi { sampleInit with loading := true }
      (.versionResultMsg "3.12.1" "Python")).1.latestVersion = "3.12.1" ∧
    (Update sampleUi { sampleInit with loading := true }
      (.versionResultMsg "3.12.1" "Python")).1.softwareName = "Python" ∧
    (Update sampleUi { sampleInit with loading := true }
      (.versionResultMsg "3.12.1" "Python")).2.startsCountdown = true ∧
    viewBranch sampleUi (Update sampleUi { sampleInit with loading := true }
      (.versionResultMsg "3.12.1" "Python")).1 = .found ∧
    View sampleColors sampleUi 73 (Update sampleUi { sampleInit with loading := true }
      (.versionResultMsg "3.12.1" "Python")).1 =
      .ok (sampleUi.paddingStyle ("\n" ++
        paintedText sampleColors (rampColors sampleColors "#B14FFF" "#00FFA3" 72) (lines cat) ++
        "\n\n" ++
        ("Latest version for " ++ sampleUi.softwareStyle "Python" ++ " is " ++
          sampleUi.versionStyle "3.12.1" ++
          "\n\n" ++ "Closing in " ++ sampleUi.timerView sampleInit.timer ++ " ðŸ‘‹"))) :=
  found_result_renders_found sampleColors sampleUi { sampleInit with loading := true }
    "3.12.1" "Python" 73 rfl (by decide) (by decide)

/-- C6, as stated, fails: the sample session submits, gets a Found result and times
out, so `quitting` is true; a not-found result delivered after that still turns
`notFound` to true, and the Enter key still turns `loading` to true. -/
theorem events_after_quitting_change_phase :
    (run sampleUi sampleInit
      [.KeyMsg SampleKey.enter, .versionResultMsg "3.12.1" "Python", .timerTimeoutMsg ()]).quitting
        = true ∧
    (run sampleUi sampleInit
      [.KeyMsg SampleKey.enter, .versionResultMsg "3.12.1" "Python", .timerTimeoutMsg ()]).notFound
        = false ∧
    (Update sampleUi (run sampleUi sampleInit
      [.KeyMsg SampleKey.enter, .versionResultMsg "3.12.1" "Python", .timerTimeoutMsg ()])
      .notFoundMsg).1.notFound = true ∧
    (run sampleUi sampleInit
      [.KeyMsg SampleKey.enter, .versionResultMsg "3.12.1" "Python", .timerTimeoutMsg ()]).loading
        = false ∧
    (Update sampleUi (run sampleUi sampleInit
      [.KeyMsg SampleKey.enter, .versionResultMsg "3.12.1" "Python", .timerTimeoutMsg ()])
      (.KeyMsg SampleKey.enter)).1.loading = true := by
  refine ⟨rfl, rfl, rfl, rfl, rfl⟩

/-- C6, amended: in every state `m`, quitting or not, `Update` on `timer.TimeoutMsg`
sets `quitting`, keeps the phase fields and returns `tea.Quit`; in every state
`q` with `quitting` true, `quitting` stays true under every message, and a
message that is neither a lookup result nor an Enter key (a key that is "esc",
"ctrl+c" or not Enter, a spinner or timer tick, a timeout, any other message)
keeps `loading`, `notFound`, `latestVersion` and `softwareName`. -/
theorem timeout_quits_and_quitting_stays (B : Bubbles) (m q : model B)
    (timeout : B.TimerTimeoutMsg) (msg : Msg B) (hq : q.quitting = true)
    (hres : msg ≠ .notFoundMsg ∧ ∀ v n, msg ≠ .versionResultMsg v n)
    (hkey : ∀ key, msg = .KeyMsg key →
      B.keyString key = "esc" ∨ B.keyString key = "ctrl+c" ∨ B.keyIsEnter key = false) :
    ((Update B m (.timerTimeoutMsg timeout)).1.quitting = true ∧
      (Update B m (.timerTimeoutMsg timeout)).2 = .Quit ∧
      (Update B m (.timerTimeoutMsg timeout)).1.loading = m.loading ∧
      (Update B m (.timerTimeoutMsg timeout)).1.notFound = m.notFound ∧
      (Update B m (.timerTimeoutMsg timeout)).1.latestVersion = m.latestVersion ∧
      (Update B m (.timerTimeoutMsg timeout)).1.softwareName = m.softwareName) ∧
    (∀ any : Msg B, (Update B q any).1.quitting = true) ∧
    ((Update B q msg).1.loading = q.loading ∧
      (Update B q msg).1.notFound = q.notFound ∧
      (Update B q msg).1.latestVersion = q.latestVersion ∧
      (Update B q msg).1.softwareName = q.softwareName) := by
  refine ⟨⟨rfl, rfl, rfl, rfl, rfl, rfl⟩, ?_, ?_⟩
  · intro any
    cases any with
    | KeyMsg key =>
      simp only [Update]
      split
      · exact hq
      · split <;> exact hq
    | _ => first | exact hq | rfl
  · cases msg with
    | notFoundMsg => exact absurd rfl hres.1
    | versionResultMsg v n => exact absurd rfl (hres.2 v n)
    | KeyMsg key =>
      simp only [Update]
      split
      · exact ⟨rfl, rfl, rfl, rfl⟩
      · rename_i hne
        have he : B.keyIsEnter key = false := by
          rcases hkey key rfl with h | h | h
          · exact absurd (Or.inl h) hne
          · exact absurd (Or.inr h) hne
          · exact h
        rw [if_neg (by simp [he])]
        exact ⟨rfl, rfl, rfl, rfl⟩
    | _ => exact ⟨rfl, rfl, rfl, rfl⟩

/-- C6, amended, at the sample session in Found, where `quitting` is still false:
the timeout sets it and quits, and in the state the timeout leaves a spinner
tick keeps the phase. -/
theorem timeout_quits_and_quitting_stays_witness :
    (sampleFound.quitting = false ∧
      viewBranch sampleUi sampleFound = .found ∧
      run sampleUi sampleInit
        [.KeyMsg SampleKey.enter, .versionResultMsg "3.12.1" "Python"] = sampleFound) ∧
    ((Update sampleUi sampleFound (.timerTimeoutMsg ())).1.quitting = true ∧
      (Update sampleUi sampleFound (.timerTimeoutMsg ())).2 = .Quit ∧
      (Update sampleUi sampleFound (.timerTimeoutMsg ())).1.loading = sampleFound.loading ∧
      (Update sampleUi sampleFound (.timerTimeoutMsg ())).1.notFound = sampleFound.notFound ∧
      (Update sampleUi sampleFound (.timerTimeoutMsg ())).1.latestVersion =
        sampleFound.latestVersion ∧
      (Update sampleUi sampleFound (.timerTimeoutMsg ())).1.softwareName =
        sampleFound.softwareName) ∧
    (∀ any : Msg sampleUi,
      (Update sampleUi (Update sampleUi sampleFound (.timerTimeoutMsg ())).1 any).1.quitting
        = true) ∧
    ((Update sampleUi (Update sampleUi sampleFound (.timerTimeoutMsg ())).1
        (.spinnerTickMsg ())).1.loading =
        (Update sampleUi sampleFound (.timerTimeoutMsg ())).1.loading ∧
      (Update sampleUi (Update sampleUi sampleFound (.timerTimeoutMsg ())).1
        (.spinnerTickMsg ())).1.notFound =
        (Update sampleUi sampleFound (.timerTimeoutMsg ())).1.notFound ∧
      (Update sampleUi (Update sampleUi sampleFound (.timerTimeoutMsg ())).1
        (.spinnerTickMsg ())).1.latestVersion =
        (Update sampleUi sampleFound (.timerTimeoutMsg ())).1.latestVersion ∧
      (Update sampleUi (Update sampleUi sampleFound (.timerTimeoutMsg ())).1
        (.spinnerTickMsg ())).1.softwareName =
        (Update sampleUi sampleFound (.timerTimeoutMsg ())).1.softwareName) :=
  ⟨⟨rfl, rfl, rfl⟩,
    timeout_quits_and_quitting_stays sampleUi sampleFound
      (Update sampleUi sampleFound (.timerTimeoutMsg ())).1 () (.spinnerTickMsg ()) rfl
      ⟨fun h => Msg.noConfusion h, fun _ _ h => Msg.noConfusion h⟩
      (fun _ h => Msg.noConfusion h)⟩

/-- C7: from the model of `teaHandler` with an empty buffer, the Enter key sets
`loading` and issues the lookup for the slug ""; the not-found result that
follows clears `loading` and sets `notFound` with `latestVersion` still empty;
`View` takes its welcome branch, then its fetching branch, then its not-found
branch, never the found one, and returns the not-found frame at the end. -/
theorem empty_submission (L : ColorLib) (B : Bubbles) (ptyTerm : String) (m0 : model B)
    (key : B.KeyMsg) (fuel : Nat)
    (h0 : teaHandler B ptyTerm true = some m0) (hbuf : B.textinputValue m0.textInput = "")
    (hent : B.keyIsEnter key = true) (hesc : B.keyString key ≠ "esc")
    (hctrl : B.keyString key ≠ "ctrl+c") (hf : 72 < fuel) :
    (Update B m0 (.KeyMsg key)).1.loading = true ∧
    (Update B m0 (.KeyMsg key)).2 = .fetchVersion "" ∧
    (Update B (Update B m0 (.KeyMsg key)).1 .notFoundMsg).1.loading = false ∧
    (Update B (Update B m0 (.KeyMsg key)).1 .notFoundMsg).1.notFound = true ∧
    (Update B (Update B m0 (.KeyMsg key)).1 .notFoundMsg).1.latestVersion = "" ∧
    viewBranch B m0 = .welcome ∧
    viewBranch B (Update B m0 (.KeyMsg key)).1 = .fetching ∧
    viewBranch B (Update B (Update B m0 (.KeyMsg key)).1 .notFoundMsg).1 = .notFound ∧
    View L B fuel (Update B (Update B m0 (.KeyMsg key)).1 .notFoundMsg).1 =
      .ok (B.paddingStyle ("\n" ++
        paintedText L (rampColors L "#B14FFF" "#00FFA3" 72)
          (lines (Replace (Replace cat "WOW" "404") "O   O" "x   x")) ++ "\n\n" ++
        ("ðŸ˜¿ No software found for " ++ B.softwareStyle "" ++
          "\n\n" ++ "Closing in " ++ B.timerView m0.timer ++ " ðŸ‘‹"))) := by
  have hq : ¬ (B.keyString key = "esc" ∨ B.keyString key = "ctrl+c") := by
    rintro (h | h)
    · exact hesc h
    · exact hctrl h
  have hm0 : m0.loading = false ∧ m0.notFound = false ∧ m0.latestVersion = "" := by
    simp only [teaHandler, Bool.not_true, Bool.false_eq_true, if_false, Option.some.injEq] at h0
    subst h0
    exact ⟨rfl, rfl, rfl⟩
  have hu : Update B m0 (.KeyMsg key) = ({ m0 with loading := true }, .fetchVersion "") := by
    simp only [Update]
    rw [if_neg hq, if_pos hent, hbuf]
  have hb : viewBranch B (Update B { m0 with loading := true } .notFoundMsg).1 = .notFound := by
    simp [viewBranch, Update]
  rw [hu]
  refine ⟨rfl, rfl, rfl, rfl, hm0.2.2, ?_, ?_, hb, ?_⟩
  · simp [viewBranch, hm0.1, hm0.2.1, hm0.2.2]
  · simp [viewBranch]
  · rw [View_eq L B fuel _ hf, viewParts_text, hb, viewParts_header]
    simp only [Update, hbuf]
    rfl

/-- C7 at the sample session and its Enter key. -/
theorem empty_submission_witness :
    (Update sampleUi sampleInit (.KeyMsg SampleKey.enter)).1.loading = true ∧
    (Update sampleUi sampleInit (.KeyMsg SampleKey.enter)).2 = .fetchVersion "" ∧
    (Update sampleUi (Update sampleUi sampleInit (.KeyMsg SampleKey.enter)).1 .notFoundMsg).1.loading
      = false ∧
    (Update sampleUi (Update sampleUi sampleInit (.KeyMsg SampleKey.enter)).1 .notFoundMsg).1.notFound
      = true ∧
    (Update sampleUi (Update sampleUi sampleInit
      (.KeyMsg SampleKey.enter)).1 .notFoundMsg).1.latestVersion = "" ∧
    viewBranch sampleUi sampleInit = .welcome ∧
    viewBranch sampleUi (Update sampleUi sampleInit (.KeyMsg SampleKey.enter)).1 = .fetching ∧
    viewBranch sampleUi
      (Update sampleUi (Update sampleUi sampleInit (.KeyMsg SampleKey.enter)).1 .notFoundMsg).1
        = .notFound ∧
    View sampleColors sampleUi 73
      (Update sampleUi (Update sampleUi sampleInit (.KeyMsg SampleKey.enter)).1 .notFoundMsg).1 =
      .ok (sampleUi.paddingStyle ("\n" ++
        paintedText sampleColors (rampColors sampleColors "#B14FFF" "#00FFA3" 72)
          (lines (Replace (Replace cat "WOW" "404") "O   O" "x   x")) ++ "\n\n" ++
        ("ðŸ˜¿ No software found for " ++ sampleUi.softwareStyle "" ++
          "\n\n" ++ "Closing in " ++ sampleUi.timerView sampleInit.timer ++ " ðŸ‘‹"))) :=
  empty_submission sampleColors sampleUi "xterm" sampleInit SampleKey.enter 73 rfl rfl rfl
    (by decide) (by decide) (by decide)

set_option maxRecDepth 20000 in
/-- The not-found banner holds "404" and "x   x", holds neither "WOW" nor "O   O",
and has lines as long as those of `cat`. -/
theorem not_found_banner_facts :
    Contains (Replace (Replace cat "WOW" "404") "O   O" "x   x") "404" = true ∧
    Contains (Replace (Replace cat "WOW" "404") "O   O" "x   x") "x   x" = true ∧
    Contains (Replace (Replace cat "WOW" "404") "O   O" "x   x") "WOW" = false ∧
    Contains (Replace (Replace cat "WOW" "404") "O   O" "x   x") "O   O" = false ∧
    (lines (Replace (Replace cat "WOW" "404") "O   O" "x   x")).map (fun line => line.data.length) =
      (lines cat).map (fun line => line.data.length) :=
  ⟨by rfl, by rfl, by rfl, by rfl, by rfl⟩

/-- C9: in every state with `loading` false and `notFound` true, the banner `View`
hands to `MakeGradient` is `cat` with "WOW" replaced by "404" and then "O   O" by
"x   x": it holds "404" and "x   x", no "WOW" and no "O   O", and its lines are as
long as those of `cat`; the text is "No software found for" with the styled
buffer, then the "Closing in" countdown, and `View` returns the frame made of
both. In every state `other` that is not such a state the banner is `cat`. -/
theorem not_found_frame (L : ColorLib) (B : Bubbles) (m other : model B) (fuel : Nat)
    (hl : m.loading = false) (hn : m.notFound = true) (hf : 72 < fuel)
    (ho : ¬ (other.loading = false ∧ other.notFound = true)) :
    (viewParts B m).1 = Replace (Replace cat "WOW" "404") "O   O" "x   x" ∧
    Contains (viewParts B m).1 "404" = true ∧
    Contains (viewParts B m).1 "x   x" = true ∧
    Contains (viewParts B m).1 "WOW" = false ∧
    Contains (viewParts B m).1 "O   O" = false ∧
    (lines (viewParts B m).1).map (fun line => line.data.length) =
      (lines cat).map (fun line => line.data.length) ∧
    (viewParts B m).2 =
      "ðŸ˜¿ No software found for " ++ B.softwareStyle (B.textinputValue m.textInput) ++
        "\n\n" ++ "Closing in " ++ B.timerView m.timer ++ " ðŸ‘‹" ∧
    View L B fuel m =
      .ok (B.paddingStyle ("\n" ++
        paintedText L (rampColors L "#B14FFF" "#00FFA3" 72)
          (lines (Replace (Replace cat "WOW" "404") "O   O" "x   x")) ++ "\n\n" ++
        ("ðŸ˜¿ No software found for " ++ B.softwareStyle (B.textinputValue m.textInput) ++
          "\n\n" ++ "Closing in " ++ B.timerView m.timer ++ " ðŸ‘‹"))) ∧
    (viewParts B other).1 = cat := by
  have hh : (viewParts B m).1 = Replace (Replace cat "WOW" "404") "O   O" "x   x" := by
    rw [viewParts_header, if_pos ⟨hl, hn⟩]
  have hb : viewBranch B m = .notFound := by
    simp [viewBranch, hl, hn]
  have ht : (viewParts B m).2 =
      "ðŸ˜¿ No software found for " ++ B.softwareStyle (B.textinputValue m.textInput) ++
        "\n\n" ++ "Closing in " ++ B.timerView m.timer ++ " ðŸ‘‹" := by
    rw [viewParts_text, hb]
  refine ⟨hh, ?_, ?_, ?_, ?_, ?_, ht, ?_, ?_⟩
  · rw [hh]; exact not_found_banner_facts.1
  · rw [hh]; exact not_found_banner_facts.2.1
  · rw [hh]; exact not_found_banner_facts.2.2.1
  · rw [hh]; exact not_found_banner_facts.2.2.2.1
  · rw [hh]; exact not_found_banner_facts.2.2.2.2
  · rw [View_eq L B fuel m hf, hh, ht]
  · rw [viewParts_header, if_neg ho]

/-- C9 at the sample session after a not-found result, against its initial state. -/
theorem not_found_frame_witness :
    (viewParts sampleUi { sampleInit with notFound := true }).1 =
      Replace (Replace cat "WOW" "404") "O   O" "x   x" ∧
    Contains (viewParts sampleUi { sampleInit with notFound := true }).1 "404" = true ∧
    Contains (viewParts sampleUi { sampleInit with notFound := true }).1 "x   x" = true ∧
    Contains (viewParts sampleUi { sampleInit with notFound := true }).1 "WOW" = false ∧
    Contains (viewParts sampleUi { sampleInit with notFound := true }).1 "O   O" = false ∧
    (lines (viewParts sampleUi { sampleInit with notFound := true }).1).map
        (fun line => line.data.length) =
      (lines cat).map (fun line => line.data.length) ∧
    (viewParts sampleUi { sampleInit with notFound := true }).2 =
      "ðŸ˜¿ No software found for " ++
        sampleUi.softwareStyle (sampleUi.textinputValue sampleInit.textInput) ++
        "\n\n" ++ "Closing in " ++ sampleUi.timerView sampleInit.timer ++ " ðŸ‘‹" ∧
    View sampleColors sampleUi 73 { sampleInit with notFound := true } =
      .ok (sampleUi.paddingStyle ("\n" ++
        paintedText sampleColors (rampColors sampleColors "#B14FFF" "#00FFA3" 72)
          (lines (Replace (Replace cat "WOW" "404") "O   O" "x   x")) ++ "\n\n" ++
        ("ðŸ˜¿ No software found for " ++
          sampleUi.softwareStyle (sampleUi.textinputValue sampleInit.textInput) ++
          "\n\n" ++ "Closing in " ++ sampleUi.timerView sampleInit.timer ++ " ðŸ‘‹"))) ∧
    (viewParts sampleUi sampleInit).1 = cat :=
  not_found_frame sampleColors sampleUi { sampleInit with notFound := true } sampleInit 73
    rfl rfl (by decide) (by decide)

/-- C10 at the text "abc", newline, "éé": the second line has 4 bytes and 2
characters, so the loop of `MakeGradient` lowers the step count from 3 to 2,
the longest line has 3 characters, and painting its third character reads
`ramp[2]` in a ramp of 2 colours: the run ends in an index-out-of-range fault
whatever the colour library and however much fuel the ramp gets. -/
theorem gradient_fault_on_multibyte_line (L : ColorLib) (fuel : Nat) :
    longestLine "abc\néé" = 3 ∧
    gradientSteps "abc\néé" = 2 ∧
    MakeGradient L (fuel + 3) "abc\néé" = .error (.indexOutOfRange 2 2) := by
  refine ⟨by rfl, by rfl, by rfl⟩

/-- C3, as stated, fails: when the HTTP call ends in a transport error the command
yields no message; it ends in `log.Fatal`, which exits the process. -/
theorem transport_error_is_fatal :
    fetchVersion sampleUi sampleNetDown "python" = .fatal "dial tcp: connection refused" ∧
    ¬ ∃ msg, fetchVersion sampleUi sampleNetDown "python" = .msg msg := by
  refine ⟨rfl, ?_⟩
  rintro ⟨msg, h⟩
  exact FetchResult.noConfusion h

/-- C3, amended: when the request is marshalled, the HTTP call returns a response
and the decoded response has its data field, the command yields one message:
`notFoundMsg` when `findVersion` is null, else the `versionResultMsg` of its
version and software name. When the HTTP call returns an error the command
yields no message: it ends in `log.Fatal` with that error. -/
theorem fetchVersion_outcomes (B : Bubbles) (N : Net) (slug json_data : String)
    (hm : N.Marshal { Query := FIND_VERSION_QUERY, Variables := { Slug := slug } } = .ok json_data) :
    (∀ body data, N.Post "https://latest-cat.fly.dev/graphql" "application/json" json_data = .ok body →
      (N.Decode body).Data = some data →
      (data.FindVersion = none → fetchVersion B N slug = .msg .notFoundMsg) ∧
      (∀ found, data.FindVersion = some found →
        fetchVersion B N slug = .msg (.versionResultMsg found.LatestVersion found.Software.Name))) ∧
    (∀ err, N.Post "https://latest-cat.fly.dev/graphql" "application/json" json_data = .error err →
      fetchVersion B N slug = .fatal err) := by
  refine ⟨?_, ?_⟩
  · intro body data hp hd
    refine ⟨?_, ?_⟩
    · intro hn
      simp only [fetchVersion, hm, hp, hd, hn]
    · intro found hsome
      simp only [fetchVersion, hm, hp, hd, hsome]
  · intro err hp
    simp only [fetchVersion, hm, hp]

/-- C3, amended, at the sample networks: python is found, another slug is not, and
a transport error is fatal. -/
theorem fetchVersion_outcomes_witness :
    fetchVersion sampleUi sampleNetUp "python" = .msg (.versionResultMsg "3.12.1" "Python") ∧
    fetchVersion sampleUi sampleNetUp "nosuch" = .msg .notFoundMsg ∧
    fetchVersion sampleUi sampleNetDown "python" = .fatal "dial tcp: connection refused" :=
  ⟨((fetchVersion_outcomes sampleUi sampleNetUp "python" "python" rfl).1 "3.12.1" _ rfl rfl).2 _ rfl,
    ((fetchVersion_outcomes sampleUi sampleNetUp "nosuch" "nosuch" rfl).1 "" _ rfl rfl).1 rfl,
    (fetchVersion_outcomes sampleUi sampleNetDown "python" "python" rfl).2 _ rfl⟩

/-- C8, as stated, fails at the whole number 2^53 + 2: the float64 counter of the
loop stops growing at 2^53, the condition `i < steps` stays true, and `MakeRamp`
returns no sequence however long it runs. -/
theorem ramp_does_not_return_past_f64_exact :
    ¬ ∃ fuel s, MakeRamp sampleColors fuel "#B14FFF" "#00FFA3" 9007199254740994 = some s := by
  rintro ⟨fuel, s, h⟩
  have hstuck := rampLoop_stuck sampleColors (sampleColors.Hex "#B14FFF")
    (sampleColors.Hex "#00FFA3") 9007199254740994 (by unfold f64Exact; omega) fuel 0 []
    (Nat.zero_le _)
  unfold MakeRamp at h
  rw [hstuck] at h
  exact Option.noConfusion h

/-- C8, amended: for every pair of colour strings and every whole number `n` up to
2^53, `MakeRamp` returns, given fuel for its `n + 1` loop tests, the ramp of the
`n` blends at `i/n`, a sequence of exactly `n` colours; for `n = 0` it returns
the empty sequence. -/
theorem MakeRamp_length (L : ColorLib) (fuel : Nat) (colorA colorB : String) (n : Nat)
    (hn : n ≤ f64Exact) (hf : n < fuel) :
    MakeRamp L fuel colorA colorB n = some (rampColors L colorA colorB n) ∧
    (rampColors L colorA colorB n).length = n ∧
    MakeRamp L fuel colorA colorB 0 = some [] := by
  refine ⟨MakeRamp_eq L fuel colorA colorB n hn hf, rampColors_length L colorA colorB n, ?_⟩
  have h0 := MakeRamp_eq L fuel colorA colorB 0 (Nat.zero_le _) (by omega)
  rw [h0]
  rfl

/-- C8, amended, at four steps between the two colours of the banner. -/
theorem MakeRamp_length_witness :
    MakeRamp sampleColors 5 "#B14FFF" "#00FFA3" 4 =
      some (rampColors sampleColors "#B14FFF" "#00FFA3" 4) ∧
    (rampColors sampleColors "#B14FFF" "#00FFA3" 4).length = 4 ∧
    MakeRamp sampleColors 5 "#B14FFF" "#00FFA3" 0 = some [] :=
  MakeRamp_length sampleColors 5 "#B14FFF" "#00FFA3" 4 (by unfold f64Exact; omega) (by omega)

end LatestCat
